import Mathlib

/-!
# Verification of the WhatsApp chatbot webhook orchestrator (`src/app.py`)

A shallow embedding of the single-file Flask application: JSON values as an
inductive type, Python attribute/index access as `Except`-valued operations
(distinguishing which exception class each Python operation raises), and the
two route handlers `webhook_post` and `webhook_get` as pure functions over an
environment recording the outcome of the external calls (OpenAI completion,
two Graph-API relay posts).
-/

namespace ChatbotWebhook

/-- A JSON value, as produced by `request.get_json()`. Numbers are modelled as
integers (no claim depends on non-integral numerics). -/
inductive Json where
  | null
  | bool (b : Bool)
  | num (n : Int)
  | str (s : String)
  | arr (elems : List Json)
  | obj (fields : List (String × Json))

/-- Lookup in a Python dict decoded from JSON text: when a key is repeated in
the source association list, the later binding wins (as in `json.loads`). -/
def pyLookup (k : String) : List (String × Json) → Option Json
  | [] => none
  | (k', v) :: rest =>
    match pyLookup k rest with
    | some w => some w
    | none => if k' = k then some v else none

/-- The Python exception classes that the descent in `webhook_post` can raise. -/
inductive PyErr where
  | indexError
  | keyError
  | attributeError
  | typeError
  deriving DecidableEq

/-- Which exceptions the handler's
`except (IndexError, AttributeError, TypeError)` clause catches.
`KeyError` is not in the tuple, so it propagates out of the handler. -/
def caught : PyErr → Bool
  | .indexError => true
  | .attributeError => true
  | .typeError => true
  | .keyError => false

/-- Python truthiness of a JSON-decoded value. -/
def truthy : Json → Bool
  | .null => false
  | .bool b => b
  | .num n => n != 0
  | .str s => s != ""
  | .arr xs => !xs.isEmpty
  | .obj kvs => !kvs.isEmpty

/-- `x.get(k, d)` in Python: succeeds only on a dict; every other
JSON-decoded value has no `get` attribute and raises `AttributeError`. -/
def pyGetD (j : Json) (k : String) (d : Json) : Except PyErr Json :=
  match j with
  | .obj kvs => .ok ((pyLookup k kvs).getD d)
  | _ => .error .attributeError

/-- `x.get(k)` in Python: default `None`. -/
def pyGet (j : Json) (k : String) : Except PyErr Json :=
  pyGetD j k .null

/-- `x[0]` in Python on a JSON-decoded value: a list yields its head or
`IndexError`; a string yields its first character (as a one-character string)
or `IndexError`; a dict raises `KeyError` (JSON object keys are strings, never
the integer `0`); `None`, booleans and numbers are not subscriptable
(`TypeError`). -/
def index0 : Json → Except PyErr Json
  | .arr [] => .error .indexError
  | .arr (x :: _) => .ok x
  | .str s =>
    match s.data with
    | [] => .error .indexError
    | c :: _ => .ok (.str (String.mk [c]))
  | .obj _ => .error .keyError
  | .null => .error .typeError
  | .bool _ => .error .typeError
  | .num _ => .error .typeError

/-- The guarded descent in `webhook_post`'s `try` block, in Python evaluation
order:

```
changes = data.get("entry", [{}])[0].get("changes", [{}])[0]
value = changes.get("value", {})
message_object = value.get("messages", [{}])[0]
metadata = value.get("metadata", {})
```

Returns `(message_object, metadata)` or the first exception raised. -/
def parsePayload (data : Json) : Except PyErr (Json × Json) := do
  let entryVal ← pyGetD data "entry" (.arr [.obj []])
  let entry0 ← index0 entryVal
  let changesVal ← pyGetD entry0 "changes" (.arr [.obj []])
  let changes ← index0 changesVal
  let value ← pyGetD changes "value" (.obj [])
  let messagesVal ← pyGetD value "messages" (.arr [.obj []])
  let messageObject ← index0 messagesVal
  let metadata ← pyGetD value "metadata" (.obj [])
  pure (messageObject, metadata)

/-- The field extraction performed after the type test, outside the `try`
block (so any `AttributeError` here is unhandled):

```
business_phone_number_id = metadata.get("phone_number_id")
user_message_text = message_object.get("text", {}).get("body")
message_from = message_object.get("from")
message_id = message_object.get("id")
``` -/
def extractFields (messageObject metadata : Json) :
    Except PyErr (Json × Json × Json × Json) := do
  let phoneNumberId ← pyGet metadata "phone_number_id"
  let textVal ← pyGetD messageObject "text" (.obj [])
  let textBody ← pyGet textVal "body"
  let fromUser ← pyGet messageObject "from"
  let messageId ← pyGet messageObject "id"
  pure (phoneNumberId, textBody, fromUser, messageId)

/-- The outcome of the external world for one request: whether the OpenAI
client was initialized at startup, what `client.chat.completions.create`
returns for a given message (or that it raises), and whether each of the two
`requests.post` relay calls succeeds (`.error` covers both transport failures
and the non-2xx statuses surfaced by `raise_for_status()`, carrying the
exception's message). -/
structure Env where
  clientInitialized : Bool
  completionCall : Json → Except Unit String
  sendOutcome : Except String Unit
  readOutcome : Except String Unit

/-- Fallback reply when the OpenAI client was never initialized. -/
def clientUnavailableReply : String :=
  "Maaf sedang ada kendala pada Asisten AI kami. Mohon ditunggu hingga kami menghubungi Anda kembali..."

/-- Fallback reply when the completion call raises. -/
def completionFailedReply : String :=
  "Ada kesalahan dalam memproses permintaan Anda. Mohon coba lagi nanti."

/-- `get_chat_completion(user_message)`: returns the completion text, or one
of the two fixed fallback strings; all exceptions from the call are caught by
its `except Exception` clause. -/
def get_chat_completion (env : Env) (userMessage : Json) : String :=
  if env.clientInitialized then
    match env.completionCall userMessage with
    | .ok content => content
    | .error _ => completionFailedReply
  else
    clientUnavailableReply

/-- Python `message_object.get("type") == "text"`: equality against the
string `"text"` holds exactly for the JSON string `"text"`. -/
def isTextType : Json → Bool
  | .str s => s = "text"
  | _ => false

/-- An outbound call attempted by the handler, in the order attempted. -/
inductive Call where
  | completion (userMessage : Json)
  | relaySend (phoneNumberId toUser : Json) (textBody : String) (contextMessageId : Json)
  | relayRead (phoneNumberId messageId : Json)

/-- What the route handler produces: an HTTP response, or an exception that
escaped the handler (Flask then yields a 500, not a handler response). -/
inductive PostResult where
  | response (status : Nat) (body : Json)
  | unhandled (e : PyErr)

def successBody : Json := .obj [("status", .str "success")]

def malformedBody : Json :=
  .obj [("status", .str "error"), ("message", .str "Malformed payload")]

def missingDataBody : Json :=
  .obj [("status", .str "error"), ("message", .str "Missing message data")]

/-- Result of one `webhook_post` invocation: the HTTP result, the outbound
calls attempted (in order), and the error log lines printed by the two relay
`except requests.exceptions.RequestException` clauses. -/
structure PostOutcome where
  result : PostResult
  calls : List Call
  relayLogs : List String

/-- The body of `webhook_post` after the parse step. Mirrors:
the truthiness-and-type test, the `not all([...])` required-field check,
`get_chat_completion`, the two relay posts each wrapped in its own
`try/except` (logged and swallowed, read attempted even if send failed), and
the shared final `return jsonify({"status": "success"}), 200`. -/
def handleParsed (env : Env) (parsed : Except PyErr (Json × Json)) : PostOutcome :=
  match parsed with
  | .error e =>
    if caught e then ⟨.response 400 malformedBody, [], []⟩
    else ⟨.unhandled e, [], []⟩
  | .ok (messageObject, metadata) =>
    if truthy messageObject then
      match pyGet messageObject "type" with
      | .error e => ⟨.unhandled e, [], []⟩
      | .ok ty =>
        if isTextType ty then
          match extractFields messageObject metadata with
          | .error e => ⟨.unhandled e, [], []⟩
          | .ok (phoneNumberId, textBody, fromUser, messageId) =>
            if truthy phoneNumberId && truthy textBody &&
                truthy fromUser && truthy messageId then
              let aiReply := get_chat_completion env textBody
              let sendLog :=
                match env.sendOutcome with
                | .ok _ => []
                | .error _ => ["Error sending reply message"]
              let readLog :=
                match env.readOutcome with
                | .ok _ => []
                | .error _ => ["Error marking message as read"]
              ⟨.response 200 successBody,
               [.completion textBody,
                .relaySend phoneNumberId fromUser aiReply messageId,
                .relayRead phoneNumberId messageId],
               sendLog ++ readLog⟩
            else ⟨.response 400 missingDataBody, [], []⟩
        else ⟨.response 200 successBody, [], []⟩
    else ⟨.response 200 successBody, [], []⟩

/-- The `POST /webhook` handler. -/
def webhook_post (env : Env) (data : Json) : PostOutcome :=
  handleParsed env (parsePayload data)

/-- Response body of `webhook_get`: either the echoed `hub.challenge`
parameter (returned verbatim, `None` included) or a `jsonify` error object. -/
inductive GetBody where
  | challenge (c : Option String)
  | errorJson (message : String)
  deriving DecidableEq

/-- Python truthiness of `request.args.get(...)`: absent (`None`) and the
empty string are both falsy. -/
def truthyOpt : Option String → Bool
  | none => false
  | some s => s != ""

/-- `token == WEBHOOK_VERIFY_TOKEN` in Python: comparing a value against
`None` (unset secret) is `False`. -/
def tokenMatches (verifyToken token : Option String) : Bool :=
  match verifyToken with
  | some v => token == some v
  | none => false

/-- The `GET /webhook` verification handler. -/
def webhook_get (verifyToken mode token challenge : Option String) :
    Nat × GetBody :=
  if truthyOpt mode && truthyOpt token then
    if mode == some "subscribe" && tokenMatches verifyToken token then
      (200, .challenge challenge)
    else
      (403, .errorJson "Verification token mismatch")
  else
    (400, .errorJson "Missing mode or token")

/-- A well-formed text message object as delivered by the platform. -/
def textMessage (t f m : String) : Json :=
  .obj [("type", .str "text"), ("text", .obj [("body", .str t)]),
        ("from", .str f), ("id", .str m)]

/-- A webhook body whose descent path reaches the given `value` object. -/
def valueDelivery (value : Json) : Json :=
  .obj [("entry", .arr [.obj [("changes", .arr [.obj [("value", value)]])]])]

/-- A webhook body carrying the given `messages` array (and any further
fields of the `value` object, e.g. `metadata`). -/
def deliveryBody (msgs : List Json) (vrest : List (String × Json)) : Json :=
  valueDelivery (.obj (("messages", .arr msgs) :: vrest))

/-- A fully-populated single text-message delivery. -/
def textDelivery (p t f m : String) : Json :=
  deliveryBody [textMessage t f m]
    [("metadata", .obj [("phone_number_id", .str p)])]

/-- An environment in which every external call succeeds. -/
def envOk : Env :=
  { clientInitialized := true
    completionCall := fun _ => .ok "Balasan AI"
    sendOutcome := .ok ()
    readOutcome := .ok () }

/-- An environment in which the OpenAI client is down and both relay calls
fail. -/
def envDown : Env :=
  { clientInitialized := false
    completionCall := fun _ => .error ()
    sendOutcome := .error "send failed"
    readOutcome := .error "read failed" }

/-! ## Helper lemmas -/

/-- On an actionable text delivery (payload parses, message object truthy with
type `"text"`, field extraction succeeds with all four values truthy), the
handler's outcome is fully determined: 200 success, the three outbound calls
in order, and a log line per failed relay call. -/
theorem webhook_post_actionable (env : Env) (data mo md p t f m : Json)
    (hparse : parsePayload data = .ok (mo, md))
    (hmo : truthy mo = true)
    (hty : pyGet mo "type" = .ok (.str "text"))
    (hext : extractFields mo md = .ok (p, t, f, m))
    (hfields : (truthy p && truthy t && truthy f && truthy m) = true) :
    webhook_post env data =
      ⟨.response 200 successBody,
       [.completion t,
        .relaySend p f (get_chat_completion env t) m,
        .relayRead p m],
       (match env.sendOutcome with
        | .ok _ => []
        | .error _ => ["Error sending reply message"]) ++
       (match env.readOutcome with
        | .ok _ => []
        | .error _ => ["Error marking message as read"])⟩ := by
  simp only [webhook_post, handleParsed, hparse, hmo, hty, hext, hfields,
    isTextType, if_true]
  rfl

/-- Field extraction on a fully-populated text delivery. -/
theorem extractFields_textDelivery (p t f m : String) :
    parsePayload (textDelivery p t f m) =
      .ok (textMessage t f m, .obj [("phone_number_id", .str p)]) ∧
    extractFields (textMessage t f m) (.obj [("phone_number_id", .str p)]) =
      .ok (.str p, .str t, .str f, .str m) := by
  constructor <;> rfl

theorem isTextType_text : isTextType (.str "text") = true := rfl

/-! ## Claim theorems -/

/-- C1: a webhook POST that parses to a text delivery with `phoneNumberId`,
`textBody`, `fromUser`, `messageId` all non-empty makes exactly one
completion-provider call (with the text body), then exactly one send-reply
relay call, then exactly one mark-as-read relay call, in that order, and
returns HTTP 200 with `{"status": "success"}`, for every outcome of the
completion and relay calls (the environment `env` is universally
quantified). -/
theorem c1_actionable_delivery_sequence (env : Env) (data mo md p t f m : Json)
    (hparse : parsePayload data = .ok (mo, md))
    (hmo : truthy mo = true)
    (hty : pyGet mo "type" = .ok (.str "text"))
    (hext : extractFields mo md = .ok (p, t, f, m))
    (hp : truthy p = true) (ht : truthy t = true)
    (hf : truthy f = true) (hm : truthy m = true) :
    (webhook_post env data).result = .response 200 successBody ∧
    (webhook_post env data).calls =
      [.completion t,
       .relaySend p f (get_chat_completion env t) m,
       .relayRead p m] := by
  rw [webhook_post_actionable env data mo md p t f m hparse hmo hty hext
    (by rw [hp, ht, hf, hm]; rfl)]
  exact ⟨rfl, rfl⟩

/-- Witness for C1, on a concrete delivery in an all-failing environment
(client down, both relay calls failing): the response is still 200 and the
three calls are still attempted in order. -/
theorem c1_actionable_delivery_sequence_witness :
    (webhook_post envDown (textDelivery "15550001111" "Halo" "628123" "wamid.A")).result =
      .response 200 successBody ∧
    (webhook_post envDown (textDelivery "15550001111" "Halo" "628123" "wamid.A")).calls =
      [.completion (.str "Halo"),
       .relaySend (.str "15550001111") (.str "628123")
         (get_chat_completion envDown (.str "Halo")) (.str "wamid.A"),
       .relayRead (.str "15550001111") (.str "wamid.A")] :=
  c1_actionable_delivery_sequence envDown
    (textDelivery "15550001111" "Halo" "628123" "wamid.A")
    (textMessage "Halo" "628123" "wamid.A")
    (.obj [("phone_number_id", .str "15550001111")])
    (.str "15550001111") (.str "Halo") (.str "628123") (.str "wamid.A")
    rfl rfl rfl rfl rfl rfl rfl rfl

/-- C4: a webhook POST that parses to a text-type message but whose required
fields are not all truthy (absent fields extract as `None`, empty strings are
falsy) is answered with HTTP 400 "Missing message data" and no outbound call
is attempted. -/
theorem c4_missing_fields_rejected (env : Env) (data mo md p t f m : Json)
    (hparse : parsePayload data = .ok (mo, md))
    (hmo : truthy mo = true)
    (hty : pyGet mo "type" = .ok (.str "text"))
    (hext : extractFields mo md = .ok (p, t, f, m))
    (hbad : (truthy p && truthy t && truthy f && truthy m) = false) :
    webhook_post env data = ⟨.response 400 missingDataBody, [], []⟩ := by
  simp only [webhook_post, handleParsed, hparse, hmo, hty, hext, hbad,
    isTextType_text, if_true, Bool.false_eq_true, if_false]

/-- Witness for C4: a text delivery whose `text.body` is the empty string. -/
theorem c4_missing_fields_rejected_witness :
    webhook_post envOk (textDelivery "15550001111" "" "628123" "wamid.A") =
      ⟨.response 400 missingDataBody, [], []⟩ :=
  c4_missing_fields_rejected envOk
    (textDelivery "15550001111" "" "628123" "wamid.A")
    (textMessage "" "628123" "wamid.A")
    (.obj [("phone_number_id", .str "15550001111")])
    (.str "15550001111") (.str "") (.str "628123") (.str "wamid.A")
    rfl rfl rfl rfl rfl

/-- C5: a webhook POST that parses successfully but carries no message object
(the parsed message object is falsy, e.g. the `{}` default) or a message whose
type is not `"text"` is answered with HTTP 200 success and no outbound call is
attempted. -/
theorem c5_non_text_ignored (env : Env) (data mo md : Json)
    (hparse : parsePayload data = .ok (mo, md)) :
    (truthy mo = false →
      webhook_post env data = ⟨.response 200 successBody, [], []⟩) ∧
    (∀ ty, pyGet mo "type" = .ok ty → isTextType ty = false →
      webhook_post env data = ⟨.response 200 successBody, [], []⟩) := by
  constructor
  · intro hmo
    simp only [webhook_post, handleParsed, hparse, hmo, Bool.false_eq_true,
      if_false]
  · intro ty hty hnt
    cases hmo : truthy mo with
    | false =>
      simp only [webhook_post, handleParsed, hparse, hmo, Bool.false_eq_true,
        if_false]
    | true =>
      simp only [webhook_post, handleParsed, hparse, hmo, hty, hnt, if_true,
        Bool.false_eq_true, if_false]

/-- Witness for C5: a status-only delivery (no `messages` key): parse yields
the falsy `{}` default, and an image-type message: both answered 200 with no
calls. -/
theorem c5_non_text_ignored_witness :
    webhook_post envOk (valueDelivery (.obj [("statuses", .arr [.obj []])])) =
      ⟨.response 200 successBody, [], []⟩ ∧
    webhook_post envOk (deliveryBody [.obj [("type", .str "image")]] []) =
      ⟨.response 200 successBody, [], []⟩ :=
  ⟨(c5_non_text_ignored envOk
      (valueDelivery (.obj [("statuses", .arr [.obj []])]))
      (.obj []) (.obj []) rfl).1 rfl,
   (c5_non_text_ignored envOk
      (deliveryBody [.obj [("type", .str "image")]] [])
      (.obj [("type", .str "image")]) (.obj []) rfl).2
     (.str "image") rfl rfl⟩

/-- C8: for an actionable text delivery, each relay operation is attempted
exactly once whatever the outcome of either (mark-as-read is attempted even
when send-reply failed, and nothing is retried), a failed operation only
contributes its error log line, and no failure changes the HTTP 200
response. -/
theorem c8_relay_failures_recoverable (env : Env) (data mo md p t f m : Json)
    (hparse : parsePayload data = .ok (mo, md))
    (hmo : truthy mo = true)
    (hty : pyGet mo "type" = .ok (.str "text"))
    (hext : extractFields mo md = .ok (p, t, f, m))
    (hfields : (truthy p && truthy t && truthy f && truthy m) = true) :
    (webhook_post env data).calls =
      [.completion t,
       .relaySend p f (get_chat_completion env t) m,
       .relayRead p m] ∧
    (webhook_post env data).result = .response 200 successBody ∧
    (∀ msg, env.sendOutcome = .error msg →
      "Error sending reply message" ∈ (webhook_post env data).relayLogs) ∧
    (∀ msg, env.readOutcome = .error msg →
      "Error marking message as read" ∈ (webhook_post env data).relayLogs) := by
  rw [webhook_post_actionable env data mo md p t f m hparse hmo hty hext hfields]
  refine ⟨rfl, rfl, ?_, ?_⟩
  · intro msg hmsg
    rw [hmsg]
    cases env.readOutcome <;> simp
  · intro msg hmsg
    rw [hmsg]
    cases env.sendOutcome <;> simp

/-- Witness for C8: concrete delivery with both relay calls failing: the
calls are still attempted in order, the response is still 200, and both
error lines are logged. -/
theorem c8_relay_failures_recoverable_witness :
    (webhook_post envDown (textDelivery "15550001111" "Halo" "628123" "wamid.B")).calls =
      [.completion (.str "Halo"),
       .relaySend (.str "15550001111") (.str "628123")
         (get_chat_completion envDown (.str "Halo")) (.str "wamid.B"),
       .relayRead (.str "15550001111") (.str "wamid.B")] ∧
    (webhook_post envDown (textDelivery "15550001111" "Halo" "628123" "wamid.B")).result =
      .response 200 successBody ∧
    "Error sending reply message" ∈
      (webhook_post envDown (textDelivery "15550001111" "Halo" "628123" "wamid.B")).relayLogs ∧
    "Error marking message as read" ∈
      (webhook_post envDown (textDelivery "15550001111" "Halo" "628123" "wamid.B")).relayLogs := by
  have h := c8_relay_failures_recoverable envDown
    (textDelivery "15550001111" "Halo" "628123" "wamid.B")
    (textMessage "Halo" "628123" "wamid.B")
    (.obj [("phone_number_id", .str "15550001111")])
    (.str "15550001111") (.str "Halo") (.str "628123") (.str "wamid.B")
    rfl rfl rfl rfl rfl
  exact ⟨h.1, h.2.1, h.2.2.1 "send failed" rfl, h.2.2.2 "read failed" rfl⟩

/-- C2, counterexample: the claim says any wrong type on the expected path
yields HTTP 400. But a JSON object in the `entry` position (an array is
expected) makes `data.get("entry", [{}])[0]` raise `KeyError`, which the
`except (IndexError, AttributeError, TypeError)` clause does not catch: the
exception escapes the handler and no 400 response is produced (no outbound
call is made either). -/
theorem c2_counterexample :
    webhook_post envOk (.obj [("entry", .obj [])]) =
      ⟨.unhandled .keyError, [], []⟩ ∧
    (webhook_post envOk (.obj [("entry", .obj [])])).result ≠
      .response 400 malformedBody := by
  refine ⟨rfl, ?_⟩
  intro h
  exact PostResult.noConfusion h

/-- C2, amended: a wrong type on the expected path that makes the guarded
descent raise `IndexError`, `AttributeError` or `TypeError` is answered with
HTTP 400 "Malformed payload" and no outbound call; a descent error that is
not caught (`KeyError`, raised by a JSON object at an array position) escapes
the handler instead of producing the 400 response — but still with no
outbound call. -/
theorem c2_malformed_payload_caught (env : Env) (data : Json) (e : PyErr)
    (hparse : parsePayload data = .error e) :
    (caught e = true →
      webhook_post env data = ⟨.response 400 malformedBody, [], []⟩) ∧
    (caught e = false →
      webhook_post env data = ⟨.unhandled e, [], []⟩) ∧
    (webhook_post env data).calls = [] := by
  refine ⟨?_, ?_, ?_⟩
  · intro hc
    simp only [webhook_post, handleParsed, hparse, hc, if_true]
  · intro hc
    simp only [webhook_post, handleParsed, hparse, hc, Bool.false_eq_true,
      if_false]
  · cases hc : caught e <;>
      simp only [webhook_post, handleParsed, hparse, hc, if_true,
        Bool.false_eq_true, if_false]

/-- Witness for C2 (amended), at a wrong type (`"entry"` bound to a number,
`TypeError`: not subscriptable): caught, hence 400 and no calls. -/
theorem c2_malformed_payload_caught_witness :
    webhook_post envOk (.obj [("entry", .num 5)]) =
      ⟨.response 400 malformedBody, [], []⟩ ∧
    (webhook_post envOk (.obj [("entry", .num 5)])).calls = [] :=
  ⟨(c2_malformed_payload_caught envOk (.obj [("entry", .num 5)])
      .typeError rfl).1 rfl,
   (c2_malformed_payload_caught envOk (.obj [("entry", .num 5)])
      .typeError rfl).2.2⟩

/-- A missing `"entry"` key defaults at every level: the parse succeeds with
the falsy `{}` message object and `{}` metadata. -/
theorem parsePayload_no_entry (kvs : List (String × Json))
    (h : pyLookup "entry" kvs = none) :
    parsePayload (.obj kvs) = .ok (.obj [], .obj []) := by
  unfold parsePayload
  simp only [pyGetD, h, Option.getD]
  rfl

/-- A missing `"changes"` key in the first entry defaults likewise. -/
theorem parsePayload_no_changes (ekvs : List (String × Json))
    (h : pyLookup "changes" ekvs = none) :
    parsePayload (.obj [("entry", .arr [.obj ekvs])]) =
      .ok (.obj [], .obj []) := by
  have step : parsePayload (.obj [("entry", .arr [.obj ekvs])]) =
      (do
        let changes ← index0 ((pyLookup "changes" ekvs).getD (.arr [.obj []]))
        let value ← pyGetD changes "value" (.obj [])
        let messagesVal ← pyGetD value "messages" (.arr [.obj []])
        let messageObject ← index0 messagesVal
        let metadata ← pyGetD value "metadata" (.obj [])
        pure (messageObject, metadata)) := rfl
  rw [step, h]
  rfl

/-- A missing `"messages"` key in the `value` object defaults to `[{}]`, so
the descent continues and yields the falsy `{}` message object together with
whatever `"metadata"` holds. -/
theorem parsePayload_no_messages (vkvs : List (String × Json))
    (h : pyLookup "messages" vkvs = none) :
    parsePayload (valueDelivery (.obj vkvs)) =
      .ok (.obj [], (pyLookup "metadata" vkvs).getD (.obj [])) := by
  have step : parsePayload (valueDelivery (.obj vkvs)) =
      (do
        let messageObject ← index0 ((pyLookup "messages" vkvs).getD (.arr [.obj []]))
        pure (messageObject, (pyLookup "metadata" vkvs).getD (.obj []))) := rfl
  rw [step, h]
  rfl

/-- C3, counterexample: the claim says an absent array index (e.g. `"entry"`
present but an empty array) is also defaulted and not reported as malformed.
But `[][0]` raises `IndexError`, which the handler catches and reports as
HTTP 400 "Malformed payload". -/
theorem c3_counterexample :
    parsePayload (.obj [("entry", .arr [])]) = .error .indexError ∧
    webhook_post envOk (.obj [("entry", .arr [])]) =
      ⟨.response 400 malformedBody, [], []⟩ :=
  ⟨rfl, rfl⟩

/-- C3, amended: only an absent key is substituted by an empty/default
structure so that the descent continues (such a body parses and is answered
200, not 400); an absent array index — `entry`, `changes` or `messages`
present but an empty array — raises `IndexError` and is reported as a
malformed payload (HTTP 400). -/
theorem c3_defensive_key_descent (env : Env) :
    (∀ kvs, pyLookup "entry" kvs = none →
      parsePayload (.obj kvs) = .ok (.obj [], .obj [])) ∧
    (∀ ekvs, pyLookup "changes" ekvs = none →
      parsePayload (.obj [("entry", .arr [.obj ekvs])]) =
        .ok (.obj [], .obj [])) ∧
    (∀ vkvs, pyLookup "messages" vkvs = none →
      parsePayload (valueDelivery (.obj vkvs)) =
        .ok (.obj [], (pyLookup "metadata" vkvs).getD (.obj []))) ∧
    (∀ kvs, pyLookup "entry" kvs = none →
      webhook_post env (.obj kvs) = ⟨.response 200 successBody, [], []⟩) ∧
    webhook_post env (.obj [("entry", .arr [])]) =
      ⟨.response 400 malformedBody, [], []⟩ ∧
    webhook_post env (.obj [("entry", .arr [.obj [("changes", .arr [])]])]) =
      ⟨.response 400 malformedBody, [], []⟩ ∧
    webhook_post env (deliveryBody [] []) =
      ⟨.response 400 malformedBody, [], []⟩ := by
  refine ⟨parsePayload_no_entry, parsePayload_no_changes,
    parsePayload_no_messages, ?_, rfl, rfl, rfl⟩
  intro kvs h
  simp only [webhook_post, handleParsed, parsePayload_no_entry kvs h]
  rfl

/-- Witness for C3 (amended): the empty JSON object has no `"entry"` key, so
it parses via defaults and is answered 200 with no calls. -/
theorem c3_defensive_key_descent_witness :
    webhook_post envOk (.obj []) = ⟨.response 200 successBody, [], []⟩ :=
  (c3_defensive_key_descent envOk).2.2.2.1 [] rfl

/-- C6: for GET /webhook, when `hub.mode` and `hub.verify_token` are both
present: `mode == "subscribe"` with the token matching the configured secret
returns 200 with `hub.challenge` echoed verbatim as the body; a mode or token
mismatch returns 403 with an error body. When mode or token is absent the
handler returns 400 with an error body. -/
theorem c6_verification_handshake (verifyToken mode token challenge : Option String) :
    (truthyOpt mode = true → truthyOpt token = true →
      ((mode = some "subscribe" → tokenMatches verifyToken token = true →
        webhook_get verifyToken mode token challenge =
          (200, .challenge challenge)) ∧
       ((mode ≠ some "subscribe" ∨ tokenMatches verifyToken token = false) →
        webhook_get verifyToken mode token challenge =
          (403, .errorJson "Verification token mismatch")))) ∧
    (truthyOpt mode = false ∨ truthyOpt token = false →
      webhook_get verifyToken mode token challenge =
        (400, .errorJson "Missing mode or token")) := by
  constructor
  · intro hm ht
    constructor
    · intro hmode htok
      subst hmode
      simp [webhook_get, hm, ht, htok]
    · intro hne
      have hcond : (mode == some "subscribe" && tokenMatches verifyToken token) = false := by
        cases hne with
        | inl h =>
          have : (mode == some "subscribe") = false := beq_eq_false_iff_ne.mpr h
          simp [this]
        | inr h => simp [h]
      simp [webhook_get, hm, ht, hcond]
  · intro h
    have hcond : (truthyOpt mode && truthyOpt token) = false := by
      cases h with
      | inl h => simp [h]
      | inr h => simp [h]
    simp [webhook_get, hcond]

/-- Witness for C6: a correct handshake echoes the challenge; a wrong token
is 403; a missing mode is 400. -/
theorem c6_verification_handshake_witness :
    webhook_get (some "secret") (some "subscribe") (some "secret") (some "1158201444") =
      (200, .challenge (some "1158201444")) ∧
    webhook_get (some "secret") (some "subscribe") (some "wrong") (some "1158201444") =
      (403, .errorJson "Verification token mismatch") ∧
    webhook_get (some "secret") none (some "secret") (some "1158201444") =
      (400, .errorJson "Missing mode or token") :=
  ⟨((c6_verification_handshake (some "secret") (some "subscribe") (some "secret")
      (some "1158201444")).1 rfl rfl).1 rfl rfl,
   ((c6_verification_handshake (some "secret") (some "subscribe") (some "wrong")
      (some "1158201444")).1 rfl rfl).2 (Or.inr rfl),
   (c6_verification_handshake (some "secret") none (some "secret")
      (some "1158201444")).2 (Or.inl rfl)⟩

/-- C9: presence of `hub.mode`/`hub.verify_token` is tested by string
truthiness, so a parameter that is present but equal to the empty string is
treated as absent: the handler answers 400 "Missing mode or token", never
403. -/
theorem c9_empty_param_treated_missing (verifyToken mode token challenge : Option String)
    (h : mode = some "" ∨ token = some "") :
    webhook_get verifyToken mode token challenge =
      (400, .errorJson "Missing mode or token") ∧
    (webhook_get verifyToken mode token challenge).1 ≠ 403 := by
  have hcond : (truthyOpt mode && truthyOpt token) = false := by
    cases h with
    | inl h => simp [h, truthyOpt]
    | inr h => simp [h, truthyOpt]
  constructor
  · simp [webhook_get, hcond]
  · simp [webhook_get, hcond]

/-- Witness for C9: `mode=subscribe` with an empty token, against the very
secret `""` would even match — still 400, not 403. -/
theorem c9_empty_param_treated_missing_witness :
    webhook_get (some "") (some "subscribe") (some "") (some "1158201444") =
      (400, .errorJson "Missing mode or token") ∧
    (webhook_get (some "") (some "subscribe") (some "") (some "1158201444")).1 ≠ 403 :=
  c9_empty_param_treated_missing (some "") (some "subscribe") (some "")
    (some "1158201444") (Or.inr rfl)

/-- C7: `get_chat_completion` is a total function into `String` (it cannot
throw): with the client uninitialized it returns the fixed "service
temporarily unavailable" fallback; with the call raising it returns the fixed
"error processing your request" fallback; both fallbacks are non-empty, so in
every failure case the returned string — which the send-reply relay call
receives as `text.body` — is non-empty. -/
theorem c7_completion_adapter_fallbacks (env : Env) (msg : Json) :
    (env.clientInitialized = false →
      get_chat_completion env msg = clientUnavailableReply) ∧
    (∀ e, env.clientInitialized = true → env.completionCall msg = .error e →
      get_chat_completion env msg = completionFailedReply) ∧
    clientUnavailableReply ≠ "" ∧
    completionFailedReply ≠ "" ∧
    ((env.clientInitialized = false ∨ env.completionCall msg = .error ()) →
      get_chat_completion env msg ≠ "") ∧
    (∀ data mo md p t f m, parsePayload data = .ok (mo, md) →
      truthy mo = true → pyGet mo "type" = .ok (.str "text") →
      extractFields mo md = .ok (p, t, f, m) →
      (truthy p && truthy t && truthy f && truthy m) = true →
      Call.relaySend p f (get_chat_completion env t) m ∈
        (webhook_post env data).calls) := by
  refine ⟨?_, ?_, by decide, by decide, ?_, ?_⟩
  · intro h
    simp [get_chat_completion, h]
  · intro e hinit herr
    simp [get_chat_completion, hinit, herr]
  · intro h
    cases h with
    | inl h =>
      have hval : get_chat_completion env msg = clientUnavailableReply := by
        simp [get_chat_completion, h]
      rw [hval]
      decide
    | inr h =>
      cases hinit : env.clientInitialized with
      | false =>
        have hval : get_chat_completion env msg = clientUnavailableReply := by
          simp [get_chat_completion, hinit]
        rw [hval]
        decide
      | true =>
        have hval : get_chat_completion env msg = completionFailedReply := by
          simp [get_chat_completion, hinit, h]
        rw [hval]
        decide
  · intro data mo md p t f m hparse hmo hty hext hfields
    rw [webhook_post_actionable env data mo md p t f m hparse hmo hty hext hfields]
    exact .tail _ (.head _)

/-- Witness for C7: with the client down, the adapter returns the non-empty
unavailable-fallback and the send-reply call on a concrete delivery carries
it. -/
theorem c7_completion_adapter_fallbacks_witness :
    get_chat_completion envDown (.str "Halo") = clientUnavailableReply ∧
    get_chat_completion envDown (.str "Halo") ≠ "" ∧
    Call.relaySend (.str "15550001111") (.str "628123")
        (get_chat_completion envDown (.str "Halo")) (.str "wamid.C") ∈
      (webhook_post envDown (textDelivery "15550001111" "Halo" "628123" "wamid.C")).calls := by
  have h := c7_completion_adapter_fallbacks envDown (.str "Halo")
  exact ⟨h.1 rfl, h.2.2.2.2.1 (Or.inl rfl),
    h.2.2.2.2.2 (textDelivery "15550001111" "Halo" "628123" "wamid.C")
      (textMessage "Halo" "628123" "wamid.C")
      (.obj [("phone_number_id", .str "15550001111")])
      (.str "15550001111") (.str "Halo") (.str "628123") (.str "wamid.C")
      rfl rfl rfl rfl rfl⟩

/-- `pyLookup` finds the head binding unless a later duplicate shadows it. -/
theorem pyLookup_head_self (k : String) (a : Json) (rest : List (String × Json)) :
    pyLookup k ((k, a) :: rest) = some ((pyLookup k rest).getD a) := by
  cases h : pyLookup k rest <;> simp [pyLookup, h]

/-- `pyLookup` skips a head binding with a different key. -/
theorem pyLookup_head_ne (k k' : String) (hne : k' ≠ k) (a : Json)
    (rest : List (String × Json)) :
    pyLookup k ((k', a) :: rest) = pyLookup k rest := by
  cases h : pyLookup k rest <;> simp [pyLookup, h, hne]

/-- Normal form of the parse on a `deliveryBody`: only `messages[0]` and
`metadata` remain to be resolved inside the `value` object. -/
theorem parsePayload_deliveryBody (msgs : List Json) (vrest : List (String × Json)) :
    parsePayload (deliveryBody msgs vrest) =
      (do
        let messageObject ←
          index0 ((pyLookup "messages" (("messages", .arr msgs) :: vrest)).getD
            (.arr [.obj []]))
        pure (messageObject,
          (pyLookup "metadata" (("messages", .arr msgs) :: vrest)).getD (.obj []))) := rfl

/-- C10: a delivery whose `messages` array holds more than one message is
handled exactly like the delivery holding only the first message: identical
outbound calls, response and logs; the remaining messages are ignored. -/
theorem c10_only_first_message (env : Env) (m : Json) (rest : List Json)
    (vrest : List (String × Json)) :
    webhook_post env (deliveryBody (m :: rest) vrest) =
      webhook_post env (deliveryBody [m] vrest) := by
  unfold webhook_post
  congr 1
  rw [parsePayload_deliveryBody, parsePayload_deliveryBody,
    pyLookup_head_self, pyLookup_head_self,
    pyLookup_head_ne "metadata" "messages" (by decide),
    pyLookup_head_ne "metadata" "messages" (by decide)]
  cases hm : pyLookup "messages" vrest with
  | some w => simp [hm]
  | none => simp [hm, index0]

end ChatbotWebhook
